import Mathlib

/-!
# udp-mqtt-bridge: the bridge loop, the manual trigger and the configuration loader

A shallow embedding of `cmd/main.go`.

* The two branches of the `select` loop in the goroutine of `main` (lines 120-157) are the
  functions `udpBranch` and `mqttBranch`; one pass of the keyboard loop (lines 160-176) is
  `keyPress`.  Each returns the new correlation table together with the list of outward
  effects (log lines and transport sends) in program order.
* `eventTimestamps` (a Go `map[string]time.Time`) is a partial function from ids to times.
* The packages `pkg/utils`, `internal/udp` and `internal/mqtt` are not part of the embedded
  file: `utils.UnmarshalCloudEvent` and `utils.CreateCloudEvent` are parameters, and the two
  `Send` methods are recorded as effects.
* `loadConfig` (lines 40-61) is embedded over a parameter for `os.Open` and one for the YAML
  decoder.
* `step` and `run` describe serial executions, in which every pass runs to completion
  before the next event is taken.  The program itself runs the goroutine and the keyboard
  loop side by side with nothing between them: `exec` and `execAll` follow the two lines
  of control statement by statement, under any schedule.
-/

namespace UdpMqttBridge

/-! ## Data model -/

/-- Config represents the application configuration (lines 23-37). -/
structure Config where
  AWSClientId : String
  AWSIOTCert : String
  AWSIOTProtocol : String
  AWSIOTEndpoint : String
  AWSIOTKey : String
  AWSIOTPort : Int
  AWSIOTRootCA : String
  MQTTTopicIn : String
  MQTTTopicOut : String
  UDPIpIn : String
  UDPIpOut : String
  UDPPortIn : Int
  UDPPortOut : Int
deriving DecidableEq

/-- The envelope handled by the bridge: the four attributes of a CloudEvent that the
program and its specification refer to (`ce.ID()`, `ce.Type()`, source, data). -/
structure CloudEvent where
  id : String
  type : String
  source : String
  data : String
deriving DecidableEq

/-- A raw payload (`[]byte`) received from a transport. -/
abbrev Payload := List Nat

/-- A reading of the process clock (`time.Time` as returned by `time.Now()`), in
nanoseconds. -/
abbrev Time := Int

/-- A `time.Duration`, in nanoseconds. -/
abbrev Duration := Int

/-- The standard library call `time.Since(startTime)` made when the clock reads `now`:
the time elapsed between the two readings.  Both readings are taken by `time.Now()` in
the same process, so the difference stays far inside the range of a `time.Duration`. -/
def timeSince (now startTime : Time) : Duration := now - startTime

/-- The correlation table `eventTimestamps : map[string]time.Time` (line 82): `none` is
an absent key. -/
abbrev Table := String → Option Time

/-- The table made by `make(map[string]time.Time)` at line 82. -/
def Table.empty : Table := fun _ => none

/-- The map assignment `m[k] = v` (line 170). -/
def Table.assign (m : Table) (k : String) (v : Time) : Table :=
  fun x => if x = k then some v else m x

/-- The builtin `delete(m, k)` (line 149). -/
def Table.delete (m : Table) (k : String) : Table :=
  fun x => if x = k then none else m x

/-- A key code of `github.com/eiannone/keyboard` (`type Key uint16`). -/
abbrev Key := Nat

/-- The constant `keyboard.KeySpace`. -/
def KeySpace : Key := 0x20

/-- The constant `keyboard.KeyEsc`. -/
def KeyEsc : Key := 0x1B

/-- The constant `keyboard.KeyCtrlC`. -/
def KeyCtrlC : Key := 0x03

/-- What the loops of `main` are given from outside: the loaded configuration, the
platform name `runtime.GOOS`, and the decoder `utils.UnmarshalCloudEvent`, whose result
`(ce, err)` is `.ok ce` when `err == nil` and `.error err` otherwise. -/
structure Deps where
  config : Config
  GOOS : String
  UnmarshalCloudEvent : Payload → Except String CloudEvent

/-- The log lines written by the two loops, one constructor per `log.Printf` or
`log.Println` call, with the arguments of the call. -/
inductive LogLine where
  /-- Line 127. -/
  | errorUnmarshalUDP (err : String)
  /-- Line 130. -/
  | forwardingUDPToMQTT (id type : String)
  /-- Line 135. -/
  | receivedMQTTMessage (mqttMsg : Payload)
  /-- Line 139. -/
  | errorUnmarshalMQTT (err : String)
  /-- Line 142. -/
  | receivedCloudEventMQTT (id type : String)
  /-- Line 147. -/
  | duration (id type : String) (duration : Duration)
  /-- Line 152. -/
  | forwardingMQTTToUDP (id type : String)
  /-- Line 167. -/
  | spaceBarPressed
  /-- Line 173. -/
  | exiting
deriving DecidableEq

/-- An outward effect of a loop pass. -/
inductive Effect where
  | log (line : LogLine)
  /-- The call `udpConn.Send(ip, port, ce)`. -/
  | udpSend (ip : String) (port : Int) (ce : CloudEvent)
  /-- The call `mqttClient.Send(topic, ce)`. -/
  | mqttSend (topic : String) (ce : CloudEvent)
deriving DecidableEq

/-! ## The bridge loop (lines 120-157) -/

/-- The case `udpPacket := <-udpConn.Receive()` of the select loop (lines 123-132). -/
def udpBranch (d : Deps) (eventTimestamps : Table) (udpPacket : Payload) :
    Table × List Effect :=
  match d.UnmarshalCloudEvent udpPacket with
  | .error err => (eventTimestamps, [.log (.errorUnmarshalUDP err)])
  | .ok ce =>
    (eventTimestamps,
      [.log (.forwardingUDPToMQTT ce.id ce.type),
       .mqttSend d.config.MQTTTopicOut ce])

/-- The case `mqttMsg := <-mqttClient.Receive()` of the select loop (lines 134-154);
`now` is the clock reading used by `time.Since`. -/
def mqttBranch (d : Deps) (eventTimestamps : Table) (mqttMsg : Payload) (now : Time) :
    Table × List Effect :=
  match d.UnmarshalCloudEvent mqttMsg with
  | .error err =>
    (eventTimestamps,
      [.log (.receivedMQTTMessage mqttMsg), .log (.errorUnmarshalMQTT err)])
  | .ok ce =>
    match eventTimestamps ce.id with
    | some startTime =>
      (eventTimestamps.delete ce.id,
        [.log (.receivedMQTTMessage mqttMsg),
         .log (.receivedCloudEventMQTT ce.id ce.type),
         .log (.duration ce.id ce.type (timeSince now startTime)),
         .log (.forwardingMQTTToUDP ce.id ce.type),
         .udpSend d.config.UDPIpOut d.config.UDPPortOut ce])
    | none =>
      (eventTimestamps,
        [.log (.receivedMQTTMessage mqttMsg),
         .log (.receivedCloudEventMQTT ce.id ce.type),
         .log (.forwardingMQTTToUDP ce.id ce.type),
         .udpSend d.config.UDPIpOut d.config.UDPPortOut ce])

/-! ## The keyboard loop (lines 160-176) -/

/-- The signature of `utils.CreateCloudEvent(eventType, source, data)`; a call draws a
fresh id, so every key press comes with its own instance. -/
abbrev Creator := String → String → String → Except String CloudEvent

/-- The condition of the `if` at line 172. -/
def isQuit (d : Deps) (char : Char) (key : Key) : Bool :=
  char = 'q' || key = KeyEsc || (key = KeyCtrlC && d.GOOS != "windows")

/-- The result of one pass of the keyboard loop: the table, the effects, and whether the
loop goes on to the next `keyboard.GetKey()`. -/
structure KeyResult where
  eventTimestamps : Table
  effects : List Effect
  continues : Bool

/-- Lines 172-175: the quit check that closes a pass of the keyboard loop. -/
def quitCheck (d : Deps) (eventTimestamps : Table) (effects : List Effect)
    (char : Char) (key : Key) : KeyResult :=
  if isQuit d char key then
    ⟨eventTimestamps, effects ++ [.log .exiting], false⟩
  else
    ⟨eventTimestamps, effects, true⟩

/-- One pass of the keyboard loop (lines 161-175) for the key press `(char, key)`
returned by `keyboard.GetKey()`; `now` is the reading of `time.Now()` at line 170. -/
def keyPress (d : Deps) (eventTimestamps : Table) (char : Char) (key : Key)
    (CreateCloudEvent : Creator) (now : Time) : KeyResult :=
  if key = KeySpace then
    match CreateCloudEvent "com.bosch-engineering.ping" "https://bosch-engineering.com"
        "ping" with
    | .error _ => ⟨eventTimestamps, [], false⟩
    | .ok ce =>
      quitCheck d (eventTimestamps.assign ce.id now)
        [.log .spaceBarPressed,
         .udpSend d.config.UDPIpOut d.config.UDPPortOut ce]
        char key
  else
    quitCheck d eventTimestamps [] char key

/-! ## Runs of the program -/

/-- The state of the orchestrator: the correlation table, and whether the process is
still in its loops (`RUNNING`) or `main` has returned (`STOPPED`). -/
structure State where
  eventTimestamps : Table
  running : Bool

/-- The state after start-up (line 82 and the start of the loops). -/
def State.init : State := ⟨Table.empty, true⟩

/-- An input taken by one of the loops. -/
inductive Event where
  /-- A payload delivered by `udpConn.Receive()`. -/
  | udp (udpPacket : Payload)
  /-- A payload delivered by `mqttClient.Receive()`, handled when the clock reads `now`. -/
  | mqtt (mqttMsg : Payload) (now : Time)
  /-- A key press delivered by `keyboard.GetKey()`. -/
  | key (char : Char) (key : Key) (CreateCloudEvent : Creator) (now : Time)

/-- One event handled to completion, with no statement of the other line of control in
between.  Once `main` has returned the process is gone and nothing is handled any more. -/
def step (d : Deps) (s : State) (e : Event) : State × List Effect :=
  if s.running then
    match e with
    | .udp udpPacket =>
      let r := udpBranch d s.eventTimestamps udpPacket
      (⟨r.1, true⟩, r.2)
    | .mqtt mqttMsg now =>
      let r := mqttBranch d s.eventTimestamps mqttMsg now
      (⟨r.1, true⟩, r.2)
    | .key char key create now =>
      let r := keyPress d s.eventTimestamps char key create now
      (⟨r.eventTimestamps, r.continues⟩, r.effects)
  else
    (s, [])

/-- A serial execution: the events are handled one after the other, each pass running
to completion before the next event is taken.  Executions in which a pass of the
keyboard loop overlaps a pass of the goroutine are those of `execAll` below. -/
def run (d : Deps) : State → List Event → State × List Effect
  | s, [] => (s, [])
  | s, e :: es =>
    let r := step d s e
    let r2 := run d r.1 es
    (r2.1, r.2 ++ r2.2)

/-! ## Observations on effects -/

/-- The UDP sends among the effects, in order: destination address, port, envelope. -/
def udpSends : List Effect → List (String × Int × CloudEvent)
  | [] => []
  | .udpSend ip port ce :: es => (ip, port, ce) :: udpSends es
  | _ :: es => udpSends es

/-- The MQTT sends among the effects, in order: topic, envelope. -/
def mqttSends : List Effect → List (String × CloudEvent)
  | [] => []
  | .mqttSend topic ce :: es => (topic, ce) :: mqttSends es
  | _ :: es => mqttSends es

/-- The durations reported among the effects (the log line of line 147), in order. -/
def durations : List Effect → List (String × String × Duration)
  | [] => []
  | .log (.duration id type dur) :: es => (id, type, dur) :: durations es
  | _ :: es => durations es

/-- The transport sends among the effects, in order, without the log lines. -/
def sends : List Effect → List Effect
  | [] => []
  | .log _ :: es => sends es
  | e :: es => e :: sends es

/-! ## Histories of handled events -/

/-- The event is an inbound payload (UDP or MQTT) on which `utils.UnmarshalCloudEvent`
returns an error. -/
def Event.undecodable (d : Deps) : Event → Bool
  | .udp udpPacket =>
    match d.UnmarshalCloudEvent udpPacket with
    | .ok _ => false
    | .error _ => true
  | .mqtt mqttMsg _ =>
    match d.UnmarshalCloudEvent mqttMsg with
    | .ok _ => false
    | .error _ => true
  | .key _ _ _ _ => false

/-- The event is an inbound payload, from either transport. -/
def Event.inbound : Event → Bool
  | .udp _ => true
  | .mqtt _ _ => true
  | .key _ _ _ _ => false

/-- What `loadConfig` uses from outside, over the type `File` of opened files and the
type `Err` of Go errors: `Open` is `os.Open`, `Decode` is
`yaml.NewDecoder(file).Decode(&config)` started on a zero `Config`, and `Join` is
`filepath.Join`. -/
structure ConfigEnv (File Err : Type) where
  Open : String → Except Err File
  Decode : File → Except Err Config
  Join : String → String → String

/-- The function `loadConfig` (lines 40-61): it loads the configuration from a YAML file. -/
def loadConfig {File Err : Type} (env : ConfigEnv File Err) (filename : String) :
    Except Err Config :=
  match env.Open filename with
  | .error err => .error err
  | .ok file =>
    match env.Decode file with
    | .error err => .error err
    | .ok config => .ok config

/-- The outcome of the configuration step of `main`. -/
inductive Startup (Err : Type) where
  /-- The process ended in `log.Fatalf("Error loading configuration: %v", err)`. -/
  | fatal (err : Err)
  /-- The configuration was loaded and start-up goes on. -/
  | loaded (config : Config)
deriving DecidableEq

/-- Lines 90-94 of `main`: load `config.yaml` from the configuration directory, and
abort with `log.Fatalf` when `loadConfig` returns an error. -/
def mainLoadConfig {File Err : Type} (env : ConfigEnv File Err) (configPath : String) :
    Startup Err :=
  match loadConfig env (env.Join configPath "config.yaml") with
  | .error err => .fatal err
  | .ok config => .loaded config

/-- The `Config` value declared by `var config Config`: every field zero. -/
def Config.zero : Config := ⟨"", "", "", "", "", 0, "", "", "", "", "", 0, 0⟩

/-! ### Flat configuration files

The sample file system below holds flat files only: YAML mappings from plain keys to
scalars without tag, where a scalar is null, a string or boolean, or an integer that
fits 32 bits.  Nested values, floats, larger integers and tagged scalars are outside
this fragment, and nothing is said about them. -/

/-- An integer that fits a Go `int` on every platform. -/
abbrev SmallInt := { n : Int // -2147483648 ≤ n ∧ n ≤ 2147483647 }

/-- A scalar of a flat file. -/
inductive YamlScalar where
  /-- The null scalar (`~`, `null`, or nothing after the colon). -/
  | null
  /-- A scalar that resolves to a string or a boolean, with its text. -/
  | str (text : String)
  /-- A scalar that resolves to an integer, with its text and its value. -/
  | int (text : String) (value : SmallInt)
deriving DecidableEq

/-- What the YAML reader finds in an opened flat file. -/
inductive YamlDocument where
  /-- Text that is not YAML. -/
  | invalid
  /-- No document at all (an empty file). -/
  | noDocument
  /-- A document that is a mapping, with its entries (plain key, scalar) in file
  order. -/
  | mapping (entries : List (String × YamlScalar))
deriving DecidableEq

/-- The kinds of error met when loading a flat file. -/
inductive LoadError where
  /-- The error of `os.Open`: the file does not exist. -/
  | notExist
  /-- The YAML reader rejects the text. -/
  | yamlSyntax
  /-- The error `io.EOF` of the decoder: there is no document. -/
  | yamlEOF
  /-- The decoder noted type errors, or met a merge key `<<` whose value is a scalar. -/
  | yamlUnmarshal
deriving DecidableEq

/-- Decoding a scalar into a string field, as `gopkg.in/yaml.v2` does: null gives the
zero value, every other scalar gives its text. -/
def unmarshalString : YamlScalar → String
  | .null => ""
  | .str text => text
  | .int text _ => text

/-- Decoding a scalar into an int field, as `gopkg.in/yaml.v2` does: null gives the zero
value, an integer its value, and a string or boolean is a type error (`none`). -/
def unmarshalInt : YamlScalar → Option Int
  | .null => some 0
  | .int _ value => some value.val
  | .str _ => none

/-- An int field receives a scalar: the field is set, or a type error is noted and the
field is left as it is. -/
def setInt (acc : Config × Bool) (v : YamlScalar) (set : Config → Int → Config) :
    Config × Bool :=
  match unmarshalInt v with
  | some n => (set acc.1 n, acc.2)
  | none => (acc.1, false)

/-- One entry of the mapping is decoded into the `Config` being filled: the key selects
the field by the `yaml` tags of lines 24-36; the merge key `<<` with a scalar value is
an error; any other key is skipped.  The flag is `false` once an error has been
noted. -/
def decodeEntry (acc : Config × Bool) (entry : String × YamlScalar) : Config × Bool :=
  match entry.1 with
  | "awsClientId" => ({ acc.1 with AWSClientId := unmarshalString entry.2 }, acc.2)
  | "awsIotCert" => ({ acc.1 with AWSIOTCert := unmarshalString entry.2 }, acc.2)
  | "awsIotProtocol" => ({ acc.1 with AWSIOTProtocol := unmarshalString entry.2 }, acc.2)
  | "awsIotEndpoint" => ({ acc.1 with AWSIOTEndpoint := unmarshalString entry.2 }, acc.2)
  | "awsIotKey" => ({ acc.1 with AWSIOTKey := unmarshalString entry.2 }, acc.2)
  | "awsIotPort" => setInt acc entry.2 (fun c v => { c with AWSIOTPort := v })
  | "awsIotRootCA" => ({ acc.1 with AWSIOTRootCA := unmarshalString entry.2 }, acc.2)
  | "mqttTopicIn" => ({ acc.1 with MQTTTopicIn := unmarshalString entry.2 }, acc.2)
  | "mqttTopicOut" => ({ acc.1 with MQTTTopicOut := unmarshalString entry.2 }, acc.2)
  | "udpIpIn" => ({ acc.1 with UDPIpIn := unmarshalString entry.2 }, acc.2)
  | "udpIpOut" => ({ acc.1 with UDPIpOut := unmarshalString entry.2 }, acc.2)
  | "udpPortIn" => setInt acc entry.2 (fun c v => { c with UDPPortIn := v })
  | "udpPortOut" => setInt acc entry.2 (fun c v => { c with UDPPortOut := v })
  | "<<" => (acc.1, false)
  | _ => acc

/-- The decoder `yaml.NewDecoder(file).Decode(&config)` of `gopkg.in/yaml.v2` on a zero
`Config`, for flat files: text that does not parse and a missing document are errors;
the entries of a mapping are decoded field by field, and the call returns an error
when one was noted.  A field whose key is absent keeps its zero value: the library has
no notion of a required field. -/
def yamlDecode : YamlDocument → Except LoadError Config
  | .invalid => .error .yamlSyntax
  | .noDocument => .error .yamlEOF
  | .mapping entries =>
    let r := entries.foldl decodeEntry (Config.zero, true)
    if r.2 then .ok r.1 else .error .yamlUnmarshal

/-- The keys of the fields that the specification lists as required: all thirteen
fields of `Config`, by their `yaml` tags. -/
def requiredKeys : List String :=
  ["awsClientId", "awsIotCert", "awsIotProtocol", "awsIotEndpoint", "awsIotKey",
   "awsIotPort", "awsIotRootCA", "mqttTopicIn", "mqttTopicOut", "udpIpIn", "udpIpOut",
   "udpPortIn", "udpPortOut"]

/-- The document lacks a required field: it is a mapping in which some required key
does not occur. -/
def YamlDocument.lacksRequiredField : YamlDocument → Bool
  | .mapping entries => requiredKeys.any (fun k => !(entries.map Prod.fst).contains k)
  | _ => false

/-! ## Sample data -/

/-- A sample configuration (the scenario of the specification). -/
def sampleConfig : Config :=
  { AWSClientId := "bridge", AWSIOTCert := "cert.pem", AWSIOTProtocol := "ssl",
    AWSIOTEndpoint := "broker.example.com", AWSIOTKey := "key.pem", AWSIOTPort := 8883,
    AWSIOTRootCA := "root.pem", MQTTTopicIn := "in", MQTTTopicOut := "out",
    UDPIpIn := "0.0.0.0", UDPIpOut := "127.0.0.1", UDPPortIn := 9000, UDPPortOut := 9001 }

/-- A sample event envelope. -/
def sampleEvent : CloudEvent := ⟨"a1", "demo.event", "s", "x"⟩

/-- A sample reply envelope with the id of `sampleEvent`. -/
def sampleReply : CloudEvent := ⟨"a1", "demo.reply", "s", ""⟩

/-- A sample ping envelope. -/
def samplePing : CloudEvent :=
  ⟨"a1", "com.bosch-engineering.ping", "https://bosch-engineering.com", "ping"⟩

/-- A sample decoder: a payload starting with byte 1 is `sampleEvent`, one starting with
byte 2 is `sampleReply`, every other payload is malformed. -/
def sampleUnmarshal : Payload → Except String CloudEvent
  | 1 :: _ => .ok sampleEvent
  | 2 :: _ => .ok sampleReply
  | _ => .error "malformed"

/-- Sample surroundings of the loops. -/
def sampleDeps : Deps := ⟨sampleConfig, "linux", sampleUnmarshal⟩

/-- A sample creator that succeeds with an envelope of id `a1`. -/
def sampleCreate : Creator := fun type source data => .ok ⟨"a1", type, source, data⟩

/-- A sample creator that fails. -/
def sampleCreateFails : Creator := fun _ _ _ => .error "no id"

/-- A sample table holding the id `a1`, recorded at time 100. -/
def sampleTable : Table := Table.empty.assign "a1" 100

/-- A sample history: a ping at time 100, the sample event over UDP, a malformed MQTT
payload, the reply at time 250, a second reply, the key `q`, and a ping that comes too
late to be handled. -/
def sampleHistory : List Event :=
  [.key (Char.ofNat 0) KeySpace sampleCreate 100, .udp [1], .mqtt [3] 200, .mqtt [2] 250,
   .mqtt [2] 260, .key 'q' 0 sampleCreate 300,
   .key (Char.ofNat 0) KeySpace sampleCreate 400]

/-- A sample file system of flat files: `configs/config.yaml` holds the single line
`awsClientId: bridge`, `bad/config.yaml` holds text that is not YAML, and no other file
exists. -/
def sampleFiles : ConfigEnv YamlDocument LoadError where
  Open := fun filename =>
    if filename = "configs/config.yaml" then
      .ok (.mapping [("awsClientId", .str "bridge")])
    else if filename = "bad/config.yaml" then .ok .invalid
    else .error .notExist
  Decode := yamlDecode
  Join := fun dir name => dir ++ "/" ++ name

/-! ## The two lines of control, statement by statement -/

/-- Where the main line of control stands in the keyboard loop (lines 160-176): the
statement it executes next, with the local variables that are live there. -/
inductive MainPc where
  /-- Line 161: blocked in `keyboard.GetKey()`. -/
  | getKey
  /-- Line 162: the test `key == keyboard.KeySpace`. -/
  | spaceTest (char : Char) (key : Key)
  /-- Lines 163-166: the call of `utils.CreateCloudEvent` and its error check. -/
  | create (char : Char) (key : Key)
  /-- Line 167: the log line of the space bar. -/
  | logSpace (ce : CloudEvent) (char : Char) (key : Key)
  /-- Line 169: `udpConn.Send(config.UDPIpOut, config.UDPPortOut, ce)`. -/
  | sendPing (ce : CloudEvent) (char : Char) (key : Key)
  /-- Line 170: `eventTimestamps[ce.ID()] = time.Now()`. -/
  | record (ce : CloudEvent) (char : Char) (key : Key)
  /-- Line 172: the quit test. -/
  | quitTest (char : Char) (key : Key)
  /-- The loop is left and `main` returns: the process ends. -/
  | returned
deriving DecidableEq

/-- Where the goroutine of the bridge loop stands (lines 120-157): the statement it
executes next, with the local variables that are live there. -/
inductive BridgePc where
  /-- Line 122: blocked in the `select`. -/
  | select
  /-- Line 125: `utils.UnmarshalCloudEvent(udpPacket)` and its error check. -/
  | udpUnmarshal (udpPacket : Payload)
  /-- Lines 127-128: the log line of a UDP decode failure, then `continue`. -/
  | udpLogError (err : String)
  /-- Line 130: the log line of the UDP forward. -/
  | udpLogForward (ce : CloudEvent)
  /-- Line 132: `mqttClient.Send(config.MQTTTopicOut, ce)`. -/
  | udpForward (ce : CloudEvent)
  /-- Line 135: the log line of a received MQTT message. -/
  | mqttLogReceived (mqttMsg : Payload)
  /-- Line 137: `utils.UnmarshalCloudEvent(mqttMsg)` and its error check. -/
  | mqttUnmarshal (mqttMsg : Payload)
  /-- Lines 139-140: the log line of an MQTT decode failure, then `continue`. -/
  | mqttLogError (err : String)
  /-- Line 142: the log line of the decoded envelope. -/
  | mqttLogEvent (ce : CloudEvent)
  /-- Line 145: the lookup `startTime, ok := eventTimestamps[ce.ID()]`. -/
  | mqttLookup (ce : CloudEvent)
  /-- Line 146: `duration := time.Since(startTime)`. -/
  | mqttSince (ce : CloudEvent) (startTime : Time)
  /-- Line 147: the log line of the duration. -/
  | mqttLogDuration (ce : CloudEvent) (duration : Duration)
  /-- Line 149: `delete(eventTimestamps, ce.ID())`. -/
  | mqttDelete (ce : CloudEvent)
  /-- Line 152: the log line of the MQTT forward. -/
  | mqttLogForward (ce : CloudEvent)
  /-- Line 154: `udpConn.Send(config.UDPIpOut, config.UDPPortOut, ce)`. -/
  | mqttForward (ce : CloudEvent)
deriving DecidableEq

/-- The process at statement granularity: the shared table, the position of each line
of control, and the effects produced so far.  The program has no further shared
variable between the two: in particular there is no lock and no channel between them. -/
structure Threads where
  eventTimestamps : Table
  main : MainPc
  bridge : BridgePc
  effects : List Effect

/-- One scheduling step: a line of control executes its next statement, or an input
arrives at the line of control that is blocked waiting for it. -/
inductive Move where
  /-- The call `keyboard.GetKey()` returns `(char, key)`. -/
  | keyArrives (char : Char) (key : Key)
  /-- The main line of control executes its next statement; `create` and `now` are what
  `utils.CreateCloudEvent` and `time.Now()` return if that statement calls them. -/
  | mainStep (create : Creator) (now : Time)
  /-- The `select` takes the case of `udpConn.Receive()`. -/
  | udpArrives (udpPacket : Payload)
  /-- The `select` takes the case of `mqttClient.Receive()`. -/
  | mqttArrives (mqttMsg : Payload)
  /-- The goroutine executes its next statement; `now` is the clock reading if that
  statement is `time.Since`. -/
  | bridgeStep (now : Time)

/-- The next statement of the main line of control is executed. -/
def mainExec (d : Deps) (t : Threads) (create : Creator) (now : Time) : Threads :=
  match t.main with
  | .getKey => t
  | .spaceTest char key =>
    if key = KeySpace then { t with main := .create char key }
    else { t with main := .quitTest char key }
  | .create char key =>
    match create "com.bosch-engineering.ping" "https://bosch-engineering.com" "ping" with
    | .error _ => { t with main := .returned }
    | .ok ce => { t with main := .logSpace ce char key }
  | .logSpace ce char key =>
    { t with main := .sendPing ce char key, effects := t.effects ++ [.log .spaceBarPressed] }
  | .sendPing ce char key =>
    { t with
      main := .record ce char key,
      effects := t.effects ++ [.udpSend d.config.UDPIpOut d.config.UDPPortOut ce] }
  | .record ce char key =>
    { t with
      main := .quitTest char key,
      eventTimestamps := t.eventTimestamps.assign ce.id now }
  | .quitTest char key =>
    if isQuit d char key then
      { t with main := .returned, effects := t.effects ++ [.log .exiting] }
    else { t with main := .getKey }
  | .returned => t

/-- The next statement of the goroutine is executed. -/
def bridgeExec (d : Deps) (t : Threads) (now : Time) : Threads :=
  match t.bridge with
  | .select => t
  | .udpUnmarshal udpPacket =>
    match d.UnmarshalCloudEvent udpPacket with
    | .error err => { t with bridge := .udpLogError err }
    | .ok ce => { t with bridge := .udpLogForward ce }
  | .udpLogError err =>
    { t with bridge := .select, effects := t.effects ++ [.log (.errorUnmarshalUDP err)] }
  | .udpLogForward ce =>
    { t with
      bridge := .udpForward ce,
      effects := t.effects ++ [.log (.forwardingUDPToMQTT ce.id ce.type)] }
  | .udpForward ce =>
    { t with
      bridge := .select,
      effects := t.effects ++ [.mqttSend d.config.MQTTTopicOut ce] }
  | .mqttLogReceived mqttMsg =>
    { t with
      bridge := .mqttUnmarshal mqttMsg,
      effects := t.effects ++ [.log (.receivedMQTTMessage mqttMsg)] }
  | .mqttUnmarshal mqttMsg =>
    match d.UnmarshalCloudEvent mqttMsg with
    | .error err => { t with bridge := .mqttLogError err }
    | .ok ce => { t with bridge := .mqttLogEvent ce }
  | .mqttLogError err =>
    { t with bridge := .select, effects := t.effects ++ [.log (.errorUnmarshalMQTT err)] }
  | .mqttLogEvent ce =>
    { t with
      bridge := .mqttLookup ce,
      effects := t.effects ++ [.log (.receivedCloudEventMQTT ce.id ce.type)] }
  | .mqttLookup ce =>
    match t.eventTimestamps ce.id with
    | some startTime => { t with bridge := .mqttSince ce startTime }
    | none => { t with bridge := .mqttLogForward ce }
  | .mqttSince ce startTime =>
    { t with bridge := .mqttLogDuration ce (timeSince now startTime) }
  | .mqttLogDuration ce duration =>
    { t with
      bridge := .mqttDelete ce,
      effects := t.effects ++ [.log (.duration ce.id ce.type duration)] }
  | .mqttDelete ce =>
    { t with bridge := .mqttLogForward ce, eventTimestamps := t.eventTimestamps.delete ce.id }
  | .mqttLogForward ce =>
    { t with
      bridge := .mqttForward ce,
      effects := t.effects ++ [.log (.forwardingMQTTToUDP ce.id ce.type)] }
  | .mqttForward ce =>
    { t with
      bridge := .select,
      effects := t.effects ++ [.udpSend d.config.UDPIpOut d.config.UDPPortOut ce] }

/-- One scheduling step.  A move that is not enabled leaves the process as it is; once
`main` has returned the process is gone and nothing moves. -/
def exec (d : Deps) (t : Threads) (m : Move) : Threads :=
  if t.main = .returned then t
  else
    match m with
    | .keyArrives char key =>
      if t.main = .getKey then { t with main := .spaceTest char key } else t
    | .mainStep create now => mainExec d t create now
    | .udpArrives udpPacket =>
      if t.bridge = .select then { t with bridge := .udpUnmarshal udpPacket } else t
    | .mqttArrives mqttMsg =>
      if t.bridge = .select then { t with bridge := .mqttLogReceived mqttMsg } else t
    | .bridgeStep now => bridgeExec d t now

/-- A schedule: the moves are made one after the other. -/
def execAll (d : Deps) (t : Threads) (schedule : List Move) : Threads :=
  schedule.foldl (exec d) t

/-- The process after start-up, at statement granularity: the empty table, the main
line of control before its first `keyboard.GetKey()`, the goroutine in its `select`. -/
def Threads.init : Threads := ⟨Table.empty, .getKey, .select, []⟩

/-- An access to the map `eventTimestamps`. -/
inductive Access where
  | read
  | write
deriving DecidableEq

/-- The access to `eventTimestamps` made by the next statement of the main line of
control, if that statement makes one: only the assignment of line 170 does. -/
def MainPc.access : MainPc → Option Access
  | .record _ _ _ => some .write
  | _ => none

/-- The access to `eventTimestamps` made by the next statement of the goroutine, if that
statement makes one: the lookup of line 145 and the `delete` of line 149. -/
def BridgePc.access : BridgePc → Option Access
  | .mqttLookup _ => some .read
  | .mqttDelete _ => some .write
  | _ => none

/-- The two lines of control access the table concurrently: the next statement of each
is an access to `eventTimestamps`, at least one of the two writes, and (there being no
lock in `Threads`) either may go first. -/
def concurrentAccess (t : Threads) : Bool :=
  match t.main.access, t.bridge.access with
  | some a, some b => a = .write || b = .write
  | _, _ => false

/-- A sample schedule: the space bar is pressed and the main line of control runs up to
the assignment of line 170; then an MQTT message arrives and the goroutine runs up to
the lookup of line 145. -/
def sampleSchedule : List Move :=
  [.keyArrives (Char.ofNat 0) KeySpace,
   .mainStep sampleCreate 100, .mainStep sampleCreate 100, .mainStep sampleCreate 100,
   .mainStep sampleCreate 100,
   .mqttArrives [2],
   .bridgeStep 150, .bridgeStep 150, .bridgeStep 150]

/-- Claim C1.  MQTT to UDP forwarding is unconditional: for every correlation table and
every MQTT payload that `utils.UnmarshalCloudEvent` decodes to `ce`, the MQTT branch
makes exactly one UDP send, to `(config.UDPIpOut, config.UDPPortOut)` and carrying
`ce` itself, and no MQTT send; the table is arbitrary, so this holds whether or not
`ce.ID()` is one of its keys. -/
theorem mqtt_forward_unconditional (d : Deps) (eventTimestamps : Table)
    (mqttMsg : Payload) (now : Time) (ce : CloudEvent)
    (h : d.UnmarshalCloudEvent mqttMsg = .ok ce) :
    udpSends (mqttBranch d eventTimestamps mqttMsg now).2
        = [(d.config.UDPIpOut, d.config.UDPPortOut, ce)] ∧
      mqttSends (mqttBranch d eventTimestamps mqttMsg now).2 = [] := by
  unfold mqttBranch
  rw [h]
  cases hlookup : eventTimestamps ce.id <;> simp [hlookup, udpSends, mqttSends]

/-- Witness of C1: the sample reply, arriving while its id is in the table. -/
theorem mqtt_forward_unconditional_witness :
    sampleDeps.UnmarshalCloudEvent [2] = .ok sampleReply ∧
      udpSends (mqttBranch sampleDeps sampleTable [2] 250).2
        = [("127.0.0.1", 9001, sampleReply)] ∧
      mqttSends (mqttBranch sampleDeps sampleTable [2] 250).2 = [] :=
  ⟨rfl, mqtt_forward_unconditional sampleDeps sampleTable [2] 250 sampleReply rfl⟩

/-- Claim C2.  UDP to MQTT forwarding: for every correlation table and every UDP payload
that `utils.UnmarshalCloudEvent` decodes to `ce`, the UDP branch makes exactly one MQTT
send, to the topic `config.MQTTTopicOut` and carrying `ce` itself, makes no UDP send,
and leaves the correlation table exactly as it was. -/
theorem udp_forward (d : Deps) (eventTimestamps : Table) (udpPacket : Payload)
    (ce : CloudEvent) (h : d.UnmarshalCloudEvent udpPacket = .ok ce) :
    mqttSends (udpBranch d eventTimestamps udpPacket).2 = [(d.config.MQTTTopicOut, ce)] ∧
      udpSends (udpBranch d eventTimestamps udpPacket).2 = [] ∧
      (udpBranch d eventTimestamps udpPacket).1 = eventTimestamps := by
  unfold udpBranch
  rw [h]
  simp [udpSends, mqttSends]

/-- Witness of C2: the sample event arriving over UDP. -/
theorem udp_forward_witness :
    sampleDeps.UnmarshalCloudEvent [1] = .ok sampleEvent ∧
      mqttSends (udpBranch sampleDeps sampleTable [1]).2 = [("out", sampleEvent)] ∧
      udpSends (udpBranch sampleDeps sampleTable [1]).2 = [] ∧
      (udpBranch sampleDeps sampleTable [1]).1 = sampleTable :=
  ⟨rfl, udp_forward sampleDeps sampleTable [1] sampleEvent rfl⟩

/-! ## Correlation -/

/-- Claim C3.  Correlation is at most once: if the table holds `x -> t0`, then handling
an MQTT envelope with id `x` at time `t1` reports exactly the duration `t1 - t0` and
removes `x` from the table, and handling a second MQTT envelope with id `x` right
afterwards reports no duration. -/
theorem correlation_at_most_once (d : Deps) (eventTimestamps : Table) (x : String)
    (t0 t1 t2 : Time) (first second : Payload) (ce1 ce2 : CloudEvent)
    (hx : eventTimestamps x = some t0)
    (h1 : d.UnmarshalCloudEvent first = .ok ce1) (hid1 : ce1.id = x)
    (h2 : d.UnmarshalCloudEvent second = .ok ce2) (hid2 : ce2.id = x) :
    durations (mqttBranch d eventTimestamps first t1).2 = [(x, ce1.type, t1 - t0)] ∧
      (mqttBranch d eventTimestamps first t1).1 x = none ∧
      durations (mqttBranch d (mqttBranch d eventTimestamps first t1).1 second t2).2
        = [] := by
  subst hid1
  have e1 : mqttBranch d eventTimestamps first t1
      = (eventTimestamps.delete ce1.id,
          [.log (.receivedMQTTMessage first),
           .log (.receivedCloudEventMQTT ce1.id ce1.type),
           .log (.duration ce1.id ce1.type (timeSince t1 t0)),
           .log (.forwardingMQTTToUDP ce1.id ce1.type),
           .udpSend d.config.UDPIpOut d.config.UDPPortOut ce1]) := by
    unfold mqttBranch
    rw [h1]
    simp only [hx]
  have e2 : (eventTimestamps.delete ce1.id) ce2.id = none := by
    simp [Table.delete, hid2]
  refine ⟨?_, ?_, ?_⟩
  · rw [e1]
    simp [durations, timeSince]
  · rw [e1]
    simp [Table.delete]
  · rw [e1]
    unfold mqttBranch
    rw [h2]
    simp only [e2]
    simp [durations]

/-- Witness of C3: the table is the one written by the manual trigger at time 100, and
two replies with the recorded id arrive at times 250 and 260. -/
theorem correlation_at_most_once_witness :
    durations (mqttBranch sampleDeps
        (keyPress sampleDeps Table.empty (Char.ofNat 0) KeySpace sampleCreate
          100).eventTimestamps [2] 250).2 = [("a1", "demo.reply", 250 - 100)] ∧
      (mqttBranch sampleDeps
        (keyPress sampleDeps Table.empty (Char.ofNat 0) KeySpace sampleCreate
          100).eventTimestamps [2] 250).1 "a1" = none ∧
      durations (mqttBranch sampleDeps (mqttBranch sampleDeps
        (keyPress sampleDeps Table.empty (Char.ofNat 0) KeySpace sampleCreate
          100).eventTimestamps [2] 250).1 [2] 260).2 = [] :=
  correlation_at_most_once sampleDeps
    (keyPress sampleDeps Table.empty (Char.ofNat 0) KeySpace sampleCreate
      100).eventTimestamps "a1" 100 250 260 [2] [2] sampleReply sampleReply
    (by decide) rfl rfl rfl rfl

/-- Claim C7.  Non-blocking on miss: for every table and every decoded MQTT envelope
`ce`, if the id of `ce` is not a key of the table then the MQTT step reports no
duration, leaves the table entirely unchanged and still makes the UDP forward of `ce`;
and in every MQTT step, hit or miss, every entry whose key differs from the id of `ce`
is unchanged. -/
theorem miss_is_non_blocking (d : Deps) (eventTimestamps : Table) (mqttMsg : Payload)
    (now : Time) (ce : CloudEvent) (h : d.UnmarshalCloudEvent mqttMsg = .ok ce) :
    (eventTimestamps ce.id = none →
        durations (mqttBranch d eventTimestamps mqttMsg now).2 = [] ∧
        (mqttBranch d eventTimestamps mqttMsg now).1 = eventTimestamps ∧
        udpSends (mqttBranch d eventTimestamps mqttMsg now).2
          = [(d.config.UDPIpOut, d.config.UDPPortOut, ce)]) ∧
      (∀ k, k ≠ ce.id →
        (mqttBranch d eventTimestamps mqttMsg now).1 k = eventTimestamps k) := by
  unfold mqttBranch
  rw [h]
  constructor
  · intro hmiss
    simp [hmiss, durations, udpSends]
  · intro k hk
    cases hlookup : eventTimestamps ce.id <;> simp [hlookup, Table.delete, hk]

/-- Witness of C7: the sample reply arriving while the table is empty (a miss), and
arriving while the table holds its id and the id `b2` (a hit that leaves `b2` alone). -/
theorem miss_is_non_blocking_witness :
    durations (mqttBranch sampleDeps Table.empty [2] 250).2 = [] ∧
      (mqttBranch sampleDeps Table.empty [2] 250).1 = Table.empty ∧
      udpSends (mqttBranch sampleDeps Table.empty [2] 250).2
        = [("127.0.0.1", 9001, sampleReply)] ∧
      (mqttBranch sampleDeps (sampleTable.assign "b2" 7) [2] 250).1 "b2"
        = (sampleTable.assign "b2" 7) "b2" :=
  ⟨((miss_is_non_blocking sampleDeps Table.empty [2] 250 sampleReply rfl).1 rfl).1,
   ((miss_is_non_blocking sampleDeps Table.empty [2] 250 sampleReply rfl).1 rfl).2.1,
   ((miss_is_non_blocking sampleDeps Table.empty [2] 250 sampleReply rfl).1 rfl).2.2,
   (miss_is_non_blocking sampleDeps (sampleTable.assign "b2" 7) [2] 250 sampleReply
      rfl).2 "b2" (by decide)⟩

/-! ## The manual trigger -/

/-- Claim C6.  Manual trigger: on a press of the space bar, `utils.CreateCloudEvent` is
called with type `com.bosch-engineering.ping`, source `https://bosch-engineering.com`
and data `ping`.  If it succeeds with `ce`, the pass makes exactly one UDP send, of
`ce` to `(config.UDPIpOut, config.UDPPortOut)`, and no MQTT send, and afterwards the
table maps the id of `ce` to the current time with every other entry unchanged.  If it
fails, nothing is sent, the table is unchanged and the keyboard loop ends. -/
theorem manual_trigger (d : Deps) (eventTimestamps : Table) (char : Char)
    (create : Creator) (now : Time) :
    (∀ ce, create "com.bosch-engineering.ping" "https://bosch-engineering.com" "ping"
          = .ok ce →
        udpSends (keyPress d eventTimestamps char KeySpace create now).effects
          = [(d.config.UDPIpOut, d.config.UDPPortOut, ce)] ∧
        mqttSends (keyPress d eventTimestamps char KeySpace create now).effects = [] ∧
        (keyPress d eventTimestamps char KeySpace create now).eventTimestamps ce.id
          = some now ∧
        ∀ k, k ≠ ce.id →
          (keyPress d eventTimestamps char KeySpace create now).eventTimestamps k
            = eventTimestamps k) ∧
      (∀ err, create "com.bosch-engineering.ping" "https://bosch-engineering.com" "ping"
          = .error err →
        (keyPress d eventTimestamps char KeySpace create now).effects = [] ∧
        (keyPress d eventTimestamps char KeySpace create now).eventTimestamps
          = eventTimestamps ∧
        (keyPress d eventTimestamps char KeySpace create now).continues = false) := by
  constructor
  · intro ce hce
    unfold keyPress quitCheck
    rw [hce]
    by_cases hq : isQuit d char KeySpace = true
    · simp [hq, udpSends, mqttSends, Table.assign]
      intro k hk
      simp [hk]
    · simp [hq, udpSends, mqttSends, Table.assign]
      intro k hk
      simp [hk]
  · intro err herr
    unfold keyPress
    rw [herr]
    simp

/-- Witness of C6: a space bar press at time 100 with a creator that succeeds, and one
with a creator that fails. -/
theorem manual_trigger_witness :
    (udpSends (keyPress sampleDeps Table.empty (Char.ofNat 0) KeySpace sampleCreate
          100).effects = [("127.0.0.1", 9001, samplePing)] ∧
      (keyPress sampleDeps Table.empty (Char.ofNat 0) KeySpace sampleCreate
          100).eventTimestamps "a1" = some 100) ∧
    ((keyPress sampleDeps sampleTable (Char.ofNat 0) KeySpace sampleCreateFails
          100).effects = [] ∧
      (keyPress sampleDeps sampleTable (Char.ofNat 0) KeySpace sampleCreateFails
          100).continues = false) :=
  ⟨⟨((manual_trigger sampleDeps Table.empty (Char.ofNat 0) sampleCreate 100).1
        samplePing rfl).1,
    ((manual_trigger sampleDeps Table.empty (Char.ofNat 0) sampleCreate 100).1
        samplePing rfl).2.2.1⟩,
   ⟨((manual_trigger sampleDeps sampleTable (Char.ofNat 0) sampleCreateFails 100).2
        "no id" rfl).1,
    ((manual_trigger sampleDeps sampleTable (Char.ofNat 0) sampleCreateFails 100).2
        "no id" rfl).2.2⟩⟩

/-- Claim C9.  Quit: for every key press `(char, key)` for which ping creation does not
fail, the pass leaves the running state if and only if `char` is `q`, or `key` is Esc,
or `key` is Ctrl+C on a platform other than Windows (so every other key press leaves
the orchestrator running); and a key press that is not the space bar, a quit key press
in particular, sends nothing and leaves the correlation table unchanged. -/
theorem quit_iff (d : Deps) (eventTimestamps : Table) (char : Char) (key : Key)
    (create : Creator) (now : Time)
    (hcreate : key = KeySpace →
      ∃ ce, create "com.bosch-engineering.ping" "https://bosch-engineering.com" "ping"
        = .ok ce) :
    ((step d ⟨eventTimestamps, true⟩ (.key char key create now)).1.running = false ↔
        (char = 'q' ∨ key = KeyEsc ∨ (key = KeyCtrlC ∧ d.GOOS ≠ "windows"))) ∧
      (key ≠ KeySpace →
        udpSends (step d ⟨eventTimestamps, true⟩ (.key char key create now)).2 = [] ∧
        mqttSends (step d ⟨eventTimestamps, true⟩ (.key char key create now)).2 = [] ∧
        (step d ⟨eventTimestamps, true⟩ (.key char key create now)).1.eventTimestamps
          = eventTimestamps) := by
  have hq : isQuit d char key = true ↔
      (char = 'q' ∨ key = KeyEsc ∨ (key = KeyCtrlC ∧ d.GOOS ≠ "windows")) := by
    simp [isQuit, or_assoc]
  constructor
  · rw [← hq]
    by_cases hk : key = KeySpace
    · obtain ⟨ce, hce⟩ := hcreate hk
      subst hk
      by_cases hquit : isQuit d char KeySpace = true <;>
        simp [step, keyPress, quitCheck, hce, hquit]
    · by_cases hquit : isQuit d char key = true <;>
        simp [step, keyPress, quitCheck, hk, hquit]
  · intro hk
    by_cases hquit : isQuit d char key = true <;>
      simp [step, keyPress, quitCheck, hk, hquit, udpSends, mqttSends]

/-- Witness of C9: the key `q` on Linux, with a creator that would succeed. -/
theorem quit_iff_witness :
    (step sampleDeps ⟨sampleTable, true⟩ (.key 'q' 0 sampleCreate 100)).1.running = false ∧
      udpSends (step sampleDeps ⟨sampleTable, true⟩ (.key 'q' 0 sampleCreate 100)).2
        = [] :=
  ⟨(quit_iff sampleDeps sampleTable 'q' 0 sampleCreate 100
      (fun _ => ⟨samplePing, rfl⟩)).1.2 (Or.inl rfl),
   ((quit_iff sampleDeps sampleTable 'q' 0 sampleCreate 100
      (fun _ => ⟨samplePing, rfl⟩)).2 (by decide)).1⟩

/-! ## Serial runs: decode failures and table entries -/

/-- The transport sends of two lists of effects put one after the other. -/
theorem sends_append (a b : List Effect) : sends (a ++ b) = sends a ++ sends b := by
  induction a with
  | nil => rfl
  | cons e es ih => cases e <;> simp [sends, ih]

/-- An undecodable payload changes nothing in the state and sends nothing. -/
theorem step_undecodable (d : Deps) (s : State) (e : Event)
    (h : e.undecodable d = true) : (step d s e).1 = s ∧ sends (step d s e).2 = [] := by
  obtain ⟨tbl, running⟩ := s
  cases running
  · simp [step, sends]
  · cases e with
    | udp p =>
      cases hp : d.UnmarshalCloudEvent p with
      | ok ce => simp [Event.undecodable, hp] at h
      | error err => simp [step, udpBranch, hp, sends]
    | mqtt p now =>
      cases hp : d.UnmarshalCloudEvent p with
      | ok ce => simp [Event.undecodable, hp] at h
      | error err => simp [step, mqttBranch, hp, sends]
    | key c k create now => simp [Event.undecodable] at h

/-- Claim C4.  Decode-failure isolation: a payload on which `utils.UnmarshalCloudEvent`
returns an error, on the UDP branch or on the MQTT branch, causes no UDP send and no
MQTT send, leaves the correlation table unchanged and leaves the loop running (the
state after the step is the state before it); hence for every sequence of events, the
sends and the final state are the same as for the sequence with the undecodable
payloads removed. -/
theorem decode_failure_isolated (d : Deps) :
    (∀ tbl p err, d.UnmarshalCloudEvent p = .error err →
        (udpBranch d tbl p).1 = tbl ∧ udpSends (udpBranch d tbl p).2 = [] ∧
        mqttSends (udpBranch d tbl p).2 = []) ∧
      (∀ tbl p now err, d.UnmarshalCloudEvent p = .error err →
        (mqttBranch d tbl p now).1 = tbl ∧ udpSends (mqttBranch d tbl p now).2 = [] ∧
        mqttSends (mqttBranch d tbl p now).2 = []) ∧
      (∀ s e, e.undecodable d = true →
        (step d s e).1 = s ∧ sends (step d s e).2 = []) ∧
      (∀ s evs,
        (run d s (evs.filter (fun e => !e.undecodable d))).1 = (run d s evs).1 ∧
        sends (run d s (evs.filter (fun e => !e.undecodable d))).2
          = sends (run d s evs).2) := by
  refine ⟨?_, ?_, step_undecodable d, ?_⟩
  · intro tbl p err h
    simp [udpBranch, h, udpSends, mqttSends]
  · intro tbl p now err h
    simp [mqttBranch, h, udpSends, mqttSends]
  · intro s evs
    induction evs generalizing s with
    | nil => simp [run]
    | cons e es ih =>
      by_cases h : e.undecodable d = true
      · have hs := step_undecodable d s e h
        simp only [List.filter, h, Bool.not_true, run, sends_append]
        rw [hs.1, hs.2]
        simpa using ih s
      · have h' : e.undecodable d = false := by simpa using h
        simp only [List.filter, h', Bool.not_false, run, sends_append]
        exact ⟨(ih _).1, by rw [(ih _).2]⟩

/-- Witness of C4: the sample history, which holds one malformed MQTT payload. -/
theorem decode_failure_isolated_witness :
    (Event.mqtt [3] 200).undecodable sampleDeps = true ∧
      sends (step sampleDeps State.init (.mqtt [3] 200)).2 = [] ∧
      sends (run sampleDeps State.init
          (sampleHistory.filter (fun e => !e.undecodable sampleDeps))).2
        = sends (run sampleDeps State.init sampleHistory).2 :=
  ⟨rfl,
   ((decode_failure_isolated sampleDeps).2.2.1 State.init (.mqtt [3] 200) rfl).2,
   ((decode_failure_isolated sampleDeps).2.2.2 State.init sampleHistory).2⟩

/-- Counterexample to C8 as stated: the file `configs/config.yaml` of the sample file
system opens and parses, and it lacks required fields (it holds `awsClientId` only);
`loadConfig` returns no error but a `Config` whose other fields are zero, and `main`
goes on with it. -/
theorem loadConfig_accepts_missing_fields :
    sampleFiles.Open "configs/config.yaml"
        = .ok (.mapping [("awsClientId", .str "bridge")]) ∧
      (YamlDocument.mapping [("awsClientId", .str "bridge")]).lacksRequiredField = true ∧
      loadConfig sampleFiles "configs/config.yaml"
        = .ok { Config.zero with AWSClientId := "bridge" } ∧
      mainLoadConfig sampleFiles "configs"
        = .loaded { Config.zero with AWSClientId := "bridge" } :=
  ⟨rfl, by decide, rfl, by decide⟩

/-- Claim C8, amended.  `loadConfig` returns an error exactly in two cases, when
`os.Open` fails (the file is missing) and when the YAML decoder returns an error (the
file is not parseable), and `main` turns that error into a fatal start-up abort; in
every other case it returns the `Config` of the decoder as it is, with no check that a
field is present. -/
theorem loadConfig_error_cases {File Err : Type} (env : ConfigEnv File Err)
    (filename : String) :
    (∀ err, env.Open filename = .error err → loadConfig env filename = .error err) ∧
      (∀ file err, env.Open filename = .ok file → env.Decode file = .error err →
        loadConfig env filename = .error err) ∧
      (∀ file config, env.Open filename = .ok file → env.Decode file = .ok config →
        loadConfig env filename = .ok config) ∧
      (∀ configPath err, loadConfig env (env.Join configPath "config.yaml") = .error err →
        mainLoadConfig env configPath = .fatal err) := by
  refine ⟨?_, ?_, ?_, ?_⟩
  · intro err h
    simp [loadConfig, h]
  · intro file err h hd
    simp [loadConfig, h, hd]
  · intro file config h hd
    simp [loadConfig, h, hd]
  · intro configPath err h
    simp [mainLoadConfig, h]

/-- Witness of C8, amended: in the sample file system a missing file and a file that is
not YAML are errors, the second one fatal for `main`, and the file that lacks fields is
loaded. -/
theorem loadConfig_error_cases_witness :
    loadConfig sampleFiles "missing/config.yaml" = .error .notExist ∧
      loadConfig sampleFiles "bad/config.yaml" = .error .yamlSyntax ∧
      loadConfig sampleFiles "configs/config.yaml"
        = .ok { Config.zero with AWSClientId := "bridge" } ∧
      mainLoadConfig sampleFiles "bad" = .fatal .yamlSyntax :=
  ⟨(loadConfig_error_cases sampleFiles "missing/config.yaml").1 _ rfl,
   (loadConfig_error_cases sampleFiles "bad/config.yaml").2.1 _ _ rfl rfl,
   (loadConfig_error_cases sampleFiles "configs/config.yaml").2.2.1 _ _ rfl rfl,
   (loadConfig_error_cases sampleFiles "x").2.2.2 "bad" _ rfl⟩

/-! ## Passes of the two lines of control -/

/-- Counterexample to C10 as stated: from the state after start-up, the sample schedule
(a press of the space bar interleaved with an inbound MQTT message) reaches a state in
which the main line of control is about to write the table (line 170) while the
goroutine is about to read it (line 145).  Nothing orders the two accesses. -/
theorem table_accessed_concurrently :
    (execAll sampleDeps Threads.init sampleSchedule).main
        = .record samplePing (Char.ofNat 0) KeySpace ∧
      (execAll sampleDeps Threads.init sampleSchedule).bridge = .mqttLookup sampleReply ∧
      concurrentAccess (execAll sampleDeps Threads.init sampleSchedule) = true := by
  decide

/-- Claim C10, amended.  The table is not protected by a mutual-exclusion discipline:
the write of the manual trigger and the lookup of the bridge loop are plain map
accesses.  From every state in which both lines of control wait for input, for every
press of the space bar whose ping is created and every inbound MQTT message that
decodes, the interleaving that runs the main line of control up to line 170 and then
the goroutine up to line 145 reaches a state in which the write and the lookup are both
the next statement of their line of control, on the table as it was. -/
theorem table_access_unprotected (d : Deps) (tbl : Table) (effects : List Effect)
    (char : Char) (create : Creator) (ping : CloudEvent) (mqttMsg : Payload)
    (ce : CloudEvent) (t1 t2 t3 t4 t5 t6 t7 : Time)
    (hcreate : create "com.bosch-engineering.ping" "https://bosch-engineering.com" "ping"
      = .ok ping)
    (hdecode : d.UnmarshalCloudEvent mqttMsg = .ok ce) :
    (execAll d ⟨tbl, .getKey, .select, effects⟩
        [.keyArrives char KeySpace, .mainStep create t1, .mainStep create t2,
         .mainStep create t3, .mainStep create t4, .mqttArrives mqttMsg,
         .bridgeStep t5, .bridgeStep t6, .bridgeStep t7]).main
        = .record ping char KeySpace ∧
      (execAll d ⟨tbl, .getKey, .select, effects⟩
        [.keyArrives char KeySpace, .mainStep create t1, .mainStep create t2,
         .mainStep create t3, .mainStep create t4, .mqttArrives mqttMsg,
         .bridgeStep t5, .bridgeStep t6, .bridgeStep t7]).bridge = .mqttLookup ce ∧
      (execAll d ⟨tbl, .getKey, .select, effects⟩
        [.keyArrives char KeySpace, .mainStep create t1, .mainStep create t2,
         .mainStep create t3, .mainStep create t4, .mqttArrives mqttMsg,
         .bridgeStep t5, .bridgeStep t6, .bridgeStep t7]).eventTimestamps = tbl ∧
      concurrentAccess (execAll d ⟨tbl, .getKey, .select, effects⟩
        [.keyArrives char KeySpace, .mainStep create t1, .mainStep create t2,
         .mainStep create t3, .mainStep create t4, .mqttArrives mqttMsg,
         .bridgeStep t5, .bridgeStep t6, .bridgeStep t7]) = true := by
  simp [execAll, exec, mainExec, bridgeExec, hcreate, hdecode, concurrentAccess,
    MainPc.access, BridgePc.access]

/-- Witness of C10, amended: the sample ping and the sample reply, from the sample
table. -/
theorem table_access_unprotected_witness :
    concurrentAccess (execAll sampleDeps ⟨sampleTable, .getKey, .select, []⟩
        [.keyArrives (Char.ofNat 0) KeySpace, .mainStep sampleCreate 100,
         .mainStep sampleCreate 100, .mainStep sampleCreate 100,
         .mainStep sampleCreate 100, .mqttArrives [2],
         .bridgeStep 150, .bridgeStep 150, .bridgeStep 150]) = true :=
  (table_access_unprotected sampleDeps sampleTable [] (Char.ofNat 0) sampleCreate
    samplePing [2] sampleReply 100 100 100 100 150 150 150 rfl rfl).2.2.2

end UdpMqttBridge
